import Mathlib

/-!
Verification of the gunnel reverse-tunnel service against its specification.

The development shallowly embeds the Go source: Go strings are byte lists
(`GoStr`), machine integers are `Nat` with explicit `% 2^w` at the points the
source truncates, fallible operations return `Option`/`Except`, and the
stateful connection/registry code is modelled by explicit state passing.
Every definition is translated from the corresponding source function.
-/

namespace Gunnel

/-- Go strings are immutable byte sequences; we model them as lists of byte
values (each morally `< 256`). -/
abbrev GoStr := List Nat

/-- Byte view of an ASCII Lean string literal, used to write the byte lists
that appear in the source readably. -/
def gostr (s : String) : GoStr := s.toList.map Char.toNat

/-- Go `byte(n)` conversion: truncation modulo 256. -/
def byteOf (n : Nat) : Nat := n % 256

/-- Go `string(i)` conversion of an integer: the UTF-8 encoding of the code
point `i`.  For byte inputs (`i < 256`) this is one byte below 128 and two
bytes otherwise. -/
def utf8OfCodePoint (b : Nat) : GoStr :=
  if b < 128 then [b] else [192 + b / 64, 128 + b % 64]

/-- `binary.BigEndian.PutUint32` / `AppendUint32`: four big-endian bytes of
`n` as a `uint32`. -/
def u32be (n : Nat) : List Nat :=
  [n % 4294967296 / 16777216, n / 65536 % 256, n / 256 % 256, n % 256]

/-- `binary.BigEndian.Uint32` on the first four bytes of `l`. -/
def be32 (l : List Nat) : Nat :=
  (l.headD 0) * 16777216 + ((l.drop 1).headD 0) * 65536 +
    ((l.drop 2).headD 0) * 256 + (l.drop 3).headD 0

/-- Message kinds of the wire protocol (pkg/protocol/enum.go). -/
inductive MessageType where
  | connectionRegister
  | connectionRegisterResp
  | disconnect
  | heartbeat
  | error
  | beginStream
  | endStream
  | connectionReady
  deriving DecidableEq, Repr

/-- Stable wire identifiers 1..8 of the message kinds (pkg/protocol/enum.go). -/
def MessageType.code : MessageType → Nat
  | .connectionRegister => 1
  | .connectionRegisterResp => 2
  | .disconnect => 3
  | .heartbeat => 4
  | .error => 5
  | .beginStream => 6
  | .endStream => 7
  | .connectionReady => 8

/-- `type Protocol string` (pkg/protocol/enum.go): a Go string value. -/
abbrev Protocol := GoStr

/-- `HTTP Protocol = "http"`. -/
def protoHTTP : Protocol := gostr "http"

/-- `TCP Protocol = "tcp"`. -/
def protoTCP : Protocol := gostr "tcp"

/-- `Protocol.Byte()`: 0 for HTTP, 1 for TCP, 255 otherwise. -/
def Protocol.toByte (p : Protocol) : Nat :=
  if p = protoHTTP then 0 else if p = protoTCP then 1 else 255

/-- `ProtocolFromByte`: the declared inverse of `Protocol.Byte`
(pkg/protocol/enum.go lines 76-85). -/
def protocolFromByte (b : Nat) : Protocol :=
  if b = 0 then protoHTTP else if b = 1 then protoTCP else []

/-- The Go expression `Protocol(payload[offset])` in
`ConnectionRegister.Unmarshal`: an integer-to-string conversion, yielding the
one-code-point string of the byte, not a protocol name. -/
def protocolCast (b : Nat) : Protocol := utf8OfCodePoint b

/-- A framed protocol message (pkg/protocol `Message`): type, a `uint32`
length field, and the payload bytes. -/
structure Message where
  type : MessageType
  length : Nat
  payload : List Nat
  deriving DecidableEq, Repr

/-- `lenUint32`: length of a byte slice or string as `uint32`; the source
panics when the length exceeds `^uint32(0)`, which we model as `none`. -/
def lenUint32 (l : List Nat) : Option Nat :=
  if l.length > 4294967295 then none else some l.length

/-- Common tail of every `Marshal` implementation:
`return &Message{Type: t, Length: lenUint32(payload), Payload: payload}`.
`none` models the `lenUint32` panic. -/
def mkMessage (t : MessageType) (payload : List Nat) : Option Message :=
  (lenUint32 payload).map fun len => ⟨t, len, payload⟩

/-- One-byte length-prefixed string ("lstr8"): `append(payload,
byte(len(s)))` then the bytes of `s`. -/
def lstr8 (s : GoStr) : List Nat := byteOf s.length :: s

/-- `boolToByte`. -/
def boolToByte (b : Bool) : Nat := if b then 1 else 0

/-- `byteToBool`. -/
def byteToBool (n : Nat) : Bool := n ≠ 0

/-- `CloseConnection` message struct (Disconnect frames). -/
structure CloseConnection where
  reason : GoStr
  deriving DecidableEq, Repr

/-- `CloseConnection.Marshal`. -/
def CloseConnection.marshal (c : CloseConnection) : Option Message :=
  mkMessage .disconnect (lstr8 c.reason)

/-- `Heartbeat` message struct. -/
structure Heartbeat where
  message : GoStr
  deriving DecidableEq, Repr

/-- `Heartbeat.Marshal`. -/
def Heartbeat.marshal (h : Heartbeat) : Option Message :=
  mkMessage .heartbeat (lstr8 h.message)

/-- `ErrorMessage` message struct. -/
structure ErrorMessage where
  message : GoStr
  deriving DecidableEq, Repr

/-- `ErrorMessage.Marshal`. -/
def ErrorMessage.marshal (e : ErrorMessage) : Option Message :=
  mkMessage .error (lstr8 e.message)

/-- `ErrorMessage.Unmarshal`: one length byte then that many message bytes. -/
def ErrorMessage.unmarshal (payload : List Nat) : ErrorMessage :=
  { message := (payload.drop 1).take (payload.headD 0) }

/-- `BeginConnection` message struct (BeginStream frames). -/
structure BeginConnection where
  subdomain : GoStr
  deriving DecidableEq, Repr

/-- `BeginConnection.Marshal`: 4-byte length then the subdomain bytes. -/
def BeginConnection.marshal (b : BeginConnection) : Option Message :=
  (lenUint32 b.subdomain).bind fun n =>
    mkMessage .beginStream (u32be n ++ b.subdomain)

/-- `BeginConnection.Unmarshal`. -/
def BeginConnection.unmarshal (payload : List Nat) : BeginConnection :=
  { subdomain := (payload.drop 4).take (be32 payload) }

/-- `EndConnection` message struct (EndStream frames). -/
structure EndConnection where
  subdomain : GoStr
  deriving DecidableEq, Repr

/-- `EndConnection.Marshal`. -/
def EndConnection.marshal (e : EndConnection) : Option Message :=
  (lenUint32 e.subdomain).bind fun n =>
    mkMessage .endStream (u32be n ++ e.subdomain)

/-- `ConnectionReady` message struct. -/
structure ConnectionReady where
  subdomain : GoStr
  deriving DecidableEq, Repr

/-- `ConnectionReady.Marshal`. -/
def ConnectionReady.marshal (c : ConnectionReady) : Option Message :=
  (lenUint32 c.subdomain).bind fun n =>
    mkMessage .connectionReady (u32be n ++ c.subdomain)

/-- `ConnectionRegister` message struct (pkg/protocol register.go). -/
structure ConnectionRegister where
  subdomain : GoStr
  host : GoStr
  port : Nat
  protocol : Protocol
  token : GoStr
  deriving DecidableEq, Repr

/-- `ConnectionRegister.Marshal`: lstr8 subdomain, lstr8 host, u32 port,
protocol byte, lstr8 token. -/
def ConnectionRegister.marshal (c : ConnectionRegister) : Option Message :=
  mkMessage .connectionRegister
    (lstr8 c.subdomain ++ lstr8 c.host ++ u32be c.port ++
      [c.protocol.toByte] ++ lstr8 c.token)

/-- `ConnectionRegister.Unmarshal`.  Note the protocol field is read with the
conversion `Protocol(payload[offset])` (`protocolCast`), and the trailing
token is optional: it is read only when a length byte is present and the
remaining bytes cover the advertised length. -/
def ConnectionRegister.unmarshal (payload : List Nat) : ConnectionRegister :=
  let subLen := payload.headD 0
  let r1 := payload.drop 1
  let subdomain := r1.take subLen
  let r2 := r1.drop subLen
  let hostLen := r2.headD 0
  let r3 := r2.drop 1
  let host := r3.take hostLen
  let r4 := r3.drop hostLen
  let port := be32 r4
  let r5 := r4.drop 4
  let protocol := protocolCast (r5.headD 0)
  let r6 := r5.drop 1
  let token :=
    if r6.length > 0 then
      let tokenLen := r6.headD 0
      let r7 := r6.drop 1
      if r7.length ≥ tokenLen then r7.take tokenLen else []
    else []
  ⟨subdomain, host, port, protocol, token⟩

/-- `ConnectionRegisterResp` message struct. -/
structure ConnectionRegisterResp where
  success : Bool
  subdomain : GoStr
  message : GoStr
  deriving DecidableEq, Repr

/-- `ConnectionRegisterResp.Marshal`: success byte, lstr8 subdomain, 4-byte
message length, message bytes. -/
def ConnectionRegisterResp.marshal (c : ConnectionRegisterResp) : Option Message :=
  (lenUint32 c.message).bind fun mlen =>
    mkMessage .connectionRegisterResp
      (boolToByte c.success :: byteOf c.subdomain.length ::
        (c.subdomain ++ u32be mlen ++ c.message))

/-! Hub registry and registration flow (pkg/manager/manager.go,
pkg/manager/registry.go).  A `Connection` pointer is modelled by a numeric
session identity; `Connection.Connected()` is supplied as a function from
session identities to `Bool`. -/

/-- A registry record `clientInfo{subdomains, client}`. -/
structure ClientInfo where
  subdomains : List GoStr
  client : Nat
  deriving DecidableEq, Repr

/-- The manager's ordered client list. -/
abbrev Registry := List ClientInfo

/-- `Manager.getClient`: linear scan for the first record whose subdomain
list contains `sub` (`slices.Contains`). -/
def getClient (reg : Registry) (sub : GoStr) : Option ClientInfo :=
  reg.find? fun c => c.subdomains.contains sub

/-- `Manager.removeClient`: delete the first record with this session and
return. -/
def removeClient (reg : Registry) (client : Nat) : Registry :=
  match reg with
  | [] => []
  | c :: rest => if c.client = client then rest else c :: removeClient rest client

/-- The subdomain-append loop at the end of `Manager.addClient`: find the
record of `client` and append `sub` to its subdomain list (first match,
then break). -/
def appendSubdomain (reg : Registry) (client : Nat) (sub : GoStr) : Registry :=
  match reg with
  | [] => []
  | c :: rest =>
    if c.client = client then { c with subdomains := c.subdomains ++ [sub] } :: rest
    else c :: appendSubdomain rest client sub

/-- `Manager.addClient`.  With an existing entry for `sub`:
`canAccept = oldClient.client.Connected() || oldClient.client == client`;
`!canAccept` is an error; `needReplace` (accepted, different session) removes
the old record and appends a fresh one; the same session gets the subdomain
appended to its record. -/
def addClient (connected : Nat → Bool) (reg : Registry) (sub : GoStr)
    (client : Nat) : Except GoStr Registry :=
  match getClient reg sub with
  | none => .ok (reg ++ [⟨[sub], client⟩])
  | some old =>
    if !(connected old.client || old.client = client) then
      .error (gostr "client already exists for subdomain " ++ sub)
    else if old.client ≠ client then
      .ok (removeClient reg old.client ++ [⟨[sub], client⟩])
    else
      .ok (appendSubdomain reg old.client sub)

/-- Outcome of the registration handler: the registry afterwards and the
`ConnectionRegisterResp` sent back on the control stream. -/
structure RegisterResult where
  registry : Registry
  resp : ConnectionRegisterResp
  deriving DecidableEq, Repr

/-- `Manager.HandleStream` (pkg/manager/registry.go): unmarshal the incoming
message as a `ConnectionRegister`, default the subdomain to "default",
recompute `canAccept` exactly as `addClient` does, call `addClient` when
accepted (its error return is not checked), and reply with
`{Success: canAccept, Subdomain, Message: reason}`.  No token check occurs
anywhere in this handler. -/
def handleStream (connected : Nat → Bool) (reg : Registry) (client : Nat)
    (msg : Message) : RegisterResult :=
  let regMsg := ConnectionRegister.unmarshal msg.payload
  let subdomain := if regMsg.subdomain = [] then gostr "default" else regMsg.subdomain
  let canAccept :=
    match getClient reg subdomain with
    | none => true
    | some old => connected old.client || old.client = client
  if !canAccept then
    { registry := reg
      resp := { success := false, subdomain := subdomain
                message := gostr "client already exists for subdomain " ++ subdomain } }
  else
    let reg' :=
      match addClient connected reg subdomain client with
      | .ok r => r
      | .error _ => reg
    { registry := reg'
      resp := { success := true, subdomain := subdomain, message := gostr "success" } }

/-- `Manager.IsAuthorized` (pkg/manager/manager.go): no validator means
allow; otherwise evaluate it on the token. -/
def isAuthorized (validator : Option (GoStr → Bool)) (token : GoStr) : Bool :=
  match validator with
  | none => true
  | some v => v token

/-! Go error values (errors.New / fmt.Errorf).  `base` is a wrap-free error,
`wrap` is `fmt.Errorf` with a trailing `%w`: the rendered text is the format
text followed by the wrapped error's text.  Sentinel identity for
`errors.Is` is modelled by structural equality, which coincides with pointer
identity here because the sentinels carry distinct texts. -/

/-- A Go error value. -/
inductive GoError where
  | base (msg : GoStr)
  | wrap (pfx : GoStr) (inner : GoError)
  deriving DecidableEq, Repr

/-- `Error()`: the rendered error text. -/
def GoError.text : GoError → GoStr
  | .base m => m
  | .wrap p i => p ++ i.text

/-- `errors.Is`: the target itself or anything it wraps. -/
def GoError.is : GoError → GoError → Bool
  | .base m, t => .base m = t
  | .wrap p i, t => .wrap p i = t || i.is t

/-- `ErrNoConnection = errors.New("no connection available")`. -/
def errNoConnection : GoError := .base (gostr "no connection available")

/-- `ErrSubdomainNotFound = errors.New("subdomain not found")`. -/
def errSubdomainNotFound : GoError := .base (gostr "subdomain not found")

/-- `Manager.Acquire` (pkg/manager/manager.go): a missing subdomain yields
`ErrSubdomainNotFound`; an existing session whose stream open fails yields
`ErrNoConnection`; success returns the session whose stream was opened.
`openOk` models whether `client.Acquire()` succeeds for a session. -/
def acquire (reg : Registry) (openOk : Nat → Bool) (sub : GoStr) :
    Except GoError Nat :=
  match getClient reg sub with
  | some c => if openOk c.client then .ok c.client else .error errNoConnection
  | none => .error errSubdomainNotFound

/-- The acquire-failure mapping inside `Manager.handleProxyFlow`
(pkg/manager/http.go): `ErrNoConnection` becomes the wrap-free error
`"no service found for subdomain <sub>"`; everything else is wrapped as
`"service temporarily unavailable: %w"`. -/
def proxyFlowAcquireErr (sub : GoStr) (e : GoError) : GoError :=
  if e.is errNoConnection then .base (gostr "no service found for subdomain " ++ sub)
  else .wrap (gostr "service temporarily unavailable: ") e

/-- The status mapping in `Manager.ServeHTTP`: 404 when the proxy-flow error
is `ErrNoConnection` per `errors.Is`, 500 otherwise. -/
def serveHTTPErrStatus (e : GoError) : Nat :=
  if e.is errNoConnection then 404 else 500

/-- `Manager.ServeHTTP` behaviour when `handleProxyFlow` fails at the acquire
stage: the status and the `http.Error` body text, or `none` when the acquire
succeeded. -/
def serveHTTPAcquireOutcome (reg : Registry) (openOk : Nat → Bool)
    (sub : GoStr) : Option (Nat × GoStr) :=
  match acquire reg openOk sub with
  | .ok _ => none
  | .error e =>
    let e' := proxyFlowAcquireErr sub e
    some (serveHTTPErrStatus e', e'.text)

/-! Connection control plane (pkg/connection/connection.go, handler.go).
Time is in nanoseconds as in `time.Duration`. -/

/-- `time.Second` in nanoseconds. -/
def nsPerSecond : Nat := 1000000000

/-- The connection's `heartbeatStats` record. -/
structure HeartbeatStats where
  last : Nat
  sent : Nat
  received : Nat
  missed : Nat
  deriving DecidableEq, Repr

/-- Observable state of a `Connection`: lifecycle flags, heartbeat
configuration and statistics, and the kinds of messages enqueued on the send
channel. -/
structure ConnState where
  connected : Bool
  transportClosed : Bool
  lastActive : Nat
  heartbeatEmitter : Bool
  heartbeatInterval : Nat
  heartbeatTimeout : Nat
  stats : HeartbeatStats
  sendQueue : List MessageType
  deriving DecidableEq, Repr

/-- `connection.New`: connected, heartbeat emitter iff not the server side,
5 s interval, 25 s timeout, stats cleared with `last = now`. -/
def connNew (imServer : Bool) (now : Nat) : ConnState :=
  { connected := true
    transportClosed := false
    lastActive := now
    heartbeatEmitter := !imServer
    heartbeatInterval := 5 * nsPerSecond
    heartbeatTimeout := 25 * nsPerSecond
    stats := { last := now, sent := 0, received := 0, missed := 0 }
    sendQueue := [] }

/-- `Connection.disconnect`: clear the connected flag, refresh `lastActive`,
close the transport. -/
def ConnState.disconnect (st : ConnState) (now : Nat) : ConnState :=
  { st with connected := false, lastActive := now, transportClosed := true }

/-- `Connection.handleMessage` (pkg/connection/handler.go).  Heartbeat
updates the stats and enqueues a reply only for the non-emitter (`sent` is
then incremented unconditionally); Disconnect disconnects; an Error message
disconnects exactly when its decoded text is empty (`errMsg.Message == ""`)
and is otherwise ignored; anything else goes to the optional user handler. -/
def handleMessage (st : ConnState) (now : Nat) (msg : Message)
    (handler : Option (ConnState → ConnState)) : ConnState :=
  let st := { st with lastActive := now }
  match msg.type with
  | .heartbeat =>
    let st := { st with stats := { st.stats with last := now, received := st.stats.received + 1 } }
    let st :=
      if !st.heartbeatEmitter then { st with sendQueue := st.sendQueue ++ [.heartbeat] }
      else st
    { st with stats := { st.stats with sent := st.stats.sent + 1 } }
  | .disconnect => st.disconnect now
  | .error =>
    let errMsg := ErrorMessage.unmarshal msg.payload
    if errMsg.message = [] then st.disconnect now else st
  | _ =>
    match handler with
    | some h => h st
    | none => st

/-- One firing of the `timeoutTicker` branch of
`Connection.observeConnection`: when `time.Since(heartbeatStats.last)`
exceeds `heartbeatTimeout`, increment `missed` and `disconnect`; otherwise
the state is untouched. -/
def watchdogTick (st : ConnState) (now : Nat) : ConnState :=
  if now - st.stats.last > st.heartbeatTimeout then
    ConnState.disconnect
      { st with stats := { st.stats with missed := st.stats.missed + 1 } } now
  else st

/-! Hub-side proxy readiness wait (pkg/manager/http.go,
`handleProxyFlow` / `readClientMessagesAndProxy`). -/

/-- `streamAcceptTimeout = 30 * time.Second` (pkg/manager/manager.go). -/
def streamAcceptTimeout : Nat := 30 * nsPerSecond

/-- Result of the reader goroutine `readClientMessagesAndProxy`, which
signals on `readyChan` or sends an error on `respChan`. -/
inductive ReadOutcome where
  | ready
  | failed (e : GoError)
  deriving DecidableEq, Repr

/-- `readClientMessagesAndProxy` over the sequence of messages the stream
delivers: the first `EndStream` fails, the first `ConnectionReady` signals
readiness, the first `Error` fails with the decoded text, other kinds are
skipped with a warning; a receive failure (stream exhausted) fails. -/
def readClientMessages : List Message → ReadOutcome
  | [] => .failed (.wrap (gostr "failed to read message: ") (.base (gostr "EOF")))
  | m :: rest =>
    match m.type with
    | .endStream => .failed (.base (gostr "connection ended before ready"))
    | .connectionReady => .ready
    | .error =>
      .failed (.base (gostr "server error: " ++ (ErrorMessage.unmarshal m.payload).message))
    | _ => readClientMessages rest

/-- Outcome of the readiness `select` in `handleProxyFlow`, together with
the fact that the deferred `Release` (which closes the stream) runs on every
return path. -/
structure ProxyWaitResult where
  released : Bool
  outcome : Except GoError Unit
  deriving Repr

/-- The readiness `select` of `handleProxyFlow`: `arrival = none` models the
30 s timer firing before the reader goroutine delivers anything, and yields
the error `"client connection not ready in time"`; a readiness signal
proceeds; a reader error is wrapped as `"failed before proxy start: %w"`. -/
def proxyFlowWait (arrival : Option ReadOutcome) : ProxyWaitResult :=
  match arrival with
  | none =>
    { released := true
      outcome := .error (.base (gostr "client connection not ready in time")) }
  | some .ready => { released := true, outcome := .ok () }
  | some (.failed e) =>
    { released := true
      outcome := .error (.wrap (gostr "failed before proxy start: ") e) }

/-! Agent-side stream handling (pkg/client/stream.go, config.go). -/

/-- A configured backend (`BackendConfig`). -/
structure BackendConfig where
  host : GoStr
  port : Nat
  subdomain : GoStr
  protocol : Protocol
  deriving DecidableEq, Repr

/-- `Client.getBackend`: first configured backend with this subdomain. -/
def getBackend (backends : List BackendConfig) (sub : GoStr) :
    Option BackendConfig :=
  backends.find? fun b => b.subdomain = sub

/-- What the agent's data-stream handler does up to the point it starts
backend I/O: the protocol messages written to the stream, whether the
deferred cleanup in `handleStream` closed the stream, and the error the
handler returned. -/
structure StreamHandleResult where
  sent : List Message
  closed : Bool
  err : Option GoStr
  deriving DecidableEq, Repr

/-- `Client.handleBeginStream`: unmarshal the `BeginConnection`; when no
backend matches the subdomain, return the error
`"no backend found for subdomain: <sub>"` without writing anything to the
stream; otherwise send `ConnectionReady{sub}` and proceed to backend I/O
(not modelled past that point).  The surrounding `handleStream` closes the
stream in a `defer` on every path. -/
def handleBeginStream (backends : List BackendConfig) (msg : Message) :
    StreamHandleResult :=
  let beginMsg := BeginConnection.unmarshal msg.payload
  match getBackend backends beginMsg.subdomain with
  | none =>
    { sent := []
      closed := true
      err := some (gostr "no backend found for subdomain: " ++ beginMsg.subdomain) }
  | some _ =>
    { sent := (ConnectionReady.marshal ⟨beginMsg.subdomain⟩).toList
      closed := true
      err := none }

/-! Transport stream wrapper (pkg/transport/stream.go). -/

/-- The behaviour of the wrapped `quic.Stream` relevant to `streamClient`:
what its `Close` returns, what a read or write would produce, and whether
setting a deadline fails. -/
structure QuicStream where
  closeErr : Option GoStr
  readData : Nat × Option GoStr
  writeData : Nat × Option GoStr
  setReadDeadlineErr : Option GoStr
  setWriteDeadlineErr : Option GoStr
  deriving DecidableEq, Repr

/-- `streamClient` state: the underlying stream (nil after a successful
close) and the metrics active flag. -/
structure StreamClient where
  id : GoStr
  stream : Option QuicStream
  isActive : Bool
  deriving DecidableEq, Repr

/-- `streamClient.Close`: nil stream is a no-op returning nil; otherwise mark
inactive, close the underlying stream, and only on success set it to nil. -/
def StreamClient.close (t : StreamClient) : Option GoStr × StreamClient :=
  match t.stream with
  | none => (none, t)
  | some q =>
    let t' := { t with isActive := false }
    match q.closeErr with
    | some e => (some (gostr "failed to close streamClient: " ++ e), t')
    | none => (none, { t' with stream := none })

/-- `streamClient.Read`: nil stream yields `(0, "stream is nil")`; otherwise
a deadline failure yields `(0, err)` and the underlying read result is
passed through. -/
def StreamClient.read (t : StreamClient) : Nat × Option GoStr :=
  match t.stream with
  | none => (0, some (gostr "stream is nil"))
  | some q =>
    match q.setReadDeadlineErr with
    | some e => (0, some e)
    | none => q.readData

/-- `streamClient.Write`: nil stream yields `(0, "stream is nil")`; otherwise
a deadline failure yields `(0, err)` and the underlying write result is
passed through. -/
def StreamClient.write (t : StreamClient) : Nat × Option GoStr :=
  match t.stream with
  | none => (0, some (gostr "stream is nil"))
  | some q =>
    match q.setWriteDeadlineErr with
    | some e => (0, some e)
    | none => q.writeData

/-- `streamClient.CloseWrite`: nil stream returns nil; otherwise close the
underlying stream, wrapping a failure. -/
def StreamClient.closeWrite (t : StreamClient) : Option GoStr :=
  match t.stream with
  | none => none
  | some q =>
    match q.closeErr with
    | some e => some (gostr "failed to close write side: " ++ e)
    | none => none

/-! Concrete sample inputs used to evaluate the model. -/

/-- The frame `ConnectionRegister.Marshal` produces for subdomain "test",
host "localhost", port 8080, protocol HTTP and token "wrong". -/
def sampleRegisterMsg : Message :=
  ⟨.connectionRegister, 26,
    lstr8 (gostr "test") ++ lstr8 (gostr "localhost") ++ u32be 8080 ++
      [Protocol.toByte protoHTTP] ++ lstr8 (gostr "wrong")⟩

/-- An agent configuration with a single backend for subdomain "test". -/
def sampleBackends : List BackendConfig :=
  [⟨gostr "localhost", 3000, gostr "test", protoHTTP⟩]

/-- The frame `BeginConnection.Marshal` produces for subdomain "ghost". -/
def ghostBeginMsg : Message := ⟨.beginStream, 9, u32be 5 ++ gostr "ghost"⟩

/-! Theorems. -/

/-- Helper: a message built by the common `Marshal` tail always has its
length field equal to its payload length. -/
theorem mkMessage_length_all (t : MessageType) (p : List Nat) :
    (mkMessage t p).all (fun m => m.length == m.payload.length) = true := by
  unfold mkMessage lenUint32
  split <;> simp

/-- C1: registration for a subdomain owned by a different session.  The code
computes `canAccept = oldClient.client.Connected()`, the reverse of the
spec's `!connected()` supersede condition: when the old session is
disconnected the hub replies success=false with "client already exists for
subdomain test" and leaves the registry unchanged, and when the old session
is still connected the hub removes it, appends the new session, and replies
success=true. -/
theorem register_supersede_inverted_eval :
    ((handleStream (fun _ => false) [⟨[gostr "test"], 1⟩] 2 sampleRegisterMsg).resp.success
        = false ∧
      (handleStream (fun _ => false) [⟨[gostr "test"], 1⟩] 2 sampleRegisterMsg).resp.message
        = gostr "client already exists for subdomain test" ∧
      (handleStream (fun _ => false) [⟨[gostr "test"], 1⟩] 2 sampleRegisterMsg).registry
        = [⟨[gostr "test"], 1⟩]) ∧
    ((handleStream (fun _ => true) [⟨[gostr "test"], 1⟩] 2 sampleRegisterMsg).resp.success
        = true ∧
      (handleStream (fun _ => true) [⟨[gostr "test"], 1⟩] 2 sampleRegisterMsg).registry
        = [⟨[gostr "test"], 2⟩]) := by
  decide

/-- C2: the registration handler never consults the token validator.  With a
validator that rejects every token configured (`isAuthorized` returns false
for the message's token "wrong"), a Register on an empty registry still adds
the entry and replies success=true with message "success" - not
success=false "unauthorized" with the registry unchanged. -/
theorem register_ignores_token_eval :
    isAuthorized (some fun _ => false) (gostr "wrong") = false ∧
    (ConnectionRegister.unmarshal sampleRegisterMsg.payload).token = gostr "wrong" ∧
    (handleStream (fun _ => false) [] 1 sampleRegisterMsg).resp.success = true ∧
    (handleStream (fun _ => false) [] 1 sampleRegisterMsg).resp.message = gostr "success" ∧
    (handleStream (fun _ => false) [] 1 sampleRegisterMsg).registry = [⟨[gostr "test"], 1⟩] := by
  decide

/-- C3: decode-encode round trip of `ConnectionRegister` breaks on the
Protocol field.  `Unmarshal` reads it with the Go conversion
`Protocol(payload[offset])` - the one-code-point string of the byte - rather
than `ProtocolFromByte`, so "http" (encoded as byte 0) decodes to the string
"\x00": every other field round-trips, the whole struct does not. -/
theorem register_roundtrip_protocol_eval : ∃ m : Message,
    ConnectionRegister.marshal
        ⟨gostr "test", gostr "localhost", 8080, protoHTTP, gostr "tok"⟩ = some m ∧
    (ConnectionRegister.unmarshal m.payload).subdomain = gostr "test" ∧
    (ConnectionRegister.unmarshal m.payload).host = gostr "localhost" ∧
    (ConnectionRegister.unmarshal m.payload).port = 8080 ∧
    (ConnectionRegister.unmarshal m.payload).token = gostr "tok" ∧
    (ConnectionRegister.unmarshal m.payload).protocol = [0] ∧
    protocolFromByte (Protocol.toByte protoHTTP) = protoHTTP ∧
    protoHTTP ≠ [0] ∧
    ConnectionRegister.unmarshal m.payload ≠
      ⟨gostr "test", gostr "localhost", 8080, protoHTTP, gostr "tok"⟩ := by
  refine ⟨_, rfl, ?_⟩
  decide

/-- C4: for a subdomain with no session, `Acquire` returns
`ErrSubdomainNotFound`, which `handleProxyFlow` wraps as "service
temporarily unavailable: %w"; `ServeHTTP` maps only `ErrNoConnection` to
404, so the user gets 500 with "service temporarily unavailable: subdomain
not found" - not 404 with "no service found for subdomain ghost".  Even the
acquire-failure path that does produce the text "no service found for
subdomain ghost" drops the sentinel (no `%w`) and is also reported as
500. -/
theorem unknown_subdomain_status_eval :
    serveHTTPAcquireOutcome [] (fun _ => true) (gostr "ghost") =
      some (500, gostr "service temporarily unavailable: subdomain not found") ∧
    serveHTTPAcquireOutcome [⟨[gostr "ghost"], 1⟩] (fun _ => false) (gostr "ghost") =
      some (500, gostr "no service found for subdomain ghost") ∧
    (500 : Nat) ≠ 404 ∧
    gostr "service temporarily unavailable: subdomain not found" ≠
      gostr "no service found for subdomain ghost" := by
  decide

/-- C5: the Error branch of `handleMessage` tests `errMsg.Message == ""`, so
a non-empty Error message ("boom") leaves the connection connected and the
transport open, while an Error message with empty text disconnects and
closes the transport - the reverse of the spec. -/
theorem error_disconnect_inverted_eval :
    (ErrorMessage.unmarshal (lstr8 (gostr "boom"))).message = gostr "boom" ∧
    ((handleMessage (connNew true 0) 5 ⟨.error, 5, lstr8 (gostr "boom")⟩ none).connected
        = true ∧
      (handleMessage (connNew true 0) 5 ⟨.error, 5, lstr8 (gostr "boom")⟩ none).transportClosed
        = false) ∧
    ((handleMessage (connNew true 0) 5 ⟨.error, 1, lstr8 []⟩ none).connected = false ∧
      (handleMessage (connNew true 0) 5 ⟨.error, 1, lstr8 []⟩ none).transportClosed = true) := by
  decide

/-- C6 counterexample: with one configured backend for "test" and a
BeginStream for "ghost", the agent's handler writes nothing on the data
stream - in particular no Error message - and only returns an error while
the deferred cleanup closes the stream. -/
theorem missing_backend_no_error_sent_eval :
    getBackend sampleBackends (gostr "ghost") = none ∧
    (handleBeginStream sampleBackends ghostBeginMsg).sent = [] ∧
    (∀ m ∈ (handleBeginStream sampleBackends ghostBeginMsg).sent, m.type ≠ .error) ∧
    (handleBeginStream sampleBackends ghostBeginMsg).closed = true ∧
    (handleBeginStream sampleBackends ghostBeginMsg).err =
      some (gostr "no backend found for subdomain: " ++ gostr "ghost") := by
  decide

/-- C6 (amended): for every first data-stream message BeginStream{sub} with
no configured backend for sub, the agent sends no message on the stream,
the handler's deferred cleanup closes it, and the failure surfaces only as
the returned error "no backend found for subdomain: sub". -/
theorem missing_backend_closes_without_message (backends : List BackendConfig)
    (msg : Message)
    (h : getBackend backends (BeginConnection.unmarshal msg.payload).subdomain = none) :
    handleBeginStream backends msg =
      ⟨[], true,
        some (gostr "no backend found for subdomain: " ++
          (BeginConnection.unmarshal msg.payload).subdomain)⟩ := by
  simp only [handleBeginStream, h]

/-- C6 witness: the amended statement evaluated at the "ghost" input. -/
theorem missing_backend_closes_without_message_witness :
    handleBeginStream sampleBackends ghostBeginMsg =
      ⟨[], true,
        some (gostr "no backend found for subdomain: " ++
          (BeginConnection.unmarshal ghostBeginMsg.payload).subdomain)⟩ :=
  missing_backend_closes_without_message sampleBackends ghostBeginMsg (by decide)

/-- C7: after BeginStream the hub's readiness wait resolves to exactly one
outcome: the reader goroutine signals ready on the first ConnectionReady,
fails on the first EndStream or Error, and if nothing arrives before the
timer (`streamAcceptTimeout` = 30 s) fires, the flow returns the error
"client connection not ready in time", which `ServeHTTP` reports as HTTP
500; the deferred `Release` closes the stream on every path. -/
theorem readiness_wait_spec :
    streamAcceptTimeout = 30 * nsPerSecond ∧
    (proxyFlowWait none).outcome =
      .error (.base (gostr "client connection not ready in time")) ∧
    (proxyFlowWait none).released = true ∧
    serveHTTPErrStatus (.base (gostr "client connection not ready in time")) = 500 ∧
    (∀ rest n pl, readClientMessages (⟨.connectionReady, n, pl⟩ :: rest) = .ready) ∧
    (∀ rest n pl, readClientMessages (⟨.endStream, n, pl⟩ :: rest) =
      .failed (.base (gostr "connection ended before ready"))) ∧
    (∀ rest n pl, readClientMessages (⟨.error, n, pl⟩ :: rest) =
      .failed (.base (gostr "server error: " ++ (ErrorMessage.unmarshal pl).message))) ∧
    (∀ arrival, (proxyFlowWait arrival).released = true) := by
  refine ⟨rfl, rfl, rfl, by decide, fun rest n pl => rfl, fun rest n pl => rfl,
    fun rest n pl => rfl, fun arrival => ?_⟩
  rcases arrival with _ | o
  · rfl
  · cases o <;> rfl

/-- C8: a connection starts with the default 25 s heartbeat timeout, and on
a watchdog tick, if the time since the last received heartbeat exceeds the
timeout, `missed` is incremented and the connection disconnects (connected
false, transport closed) within that tick; otherwise the state - `missed`
included - is untouched. -/
theorem watchdog_tick_spec (imServer : Bool) (t0 : Nat) (st : ConnState) (now : Nat) :
    (connNew imServer t0).heartbeatTimeout = 25 * nsPerSecond ∧
    (now - st.stats.last > st.heartbeatTimeout →
      (watchdogTick st now).stats.missed = st.stats.missed + 1 ∧
      (watchdogTick st now).connected = false ∧
      (watchdogTick st now).transportClosed = true) ∧
    (now - st.stats.last ≤ st.heartbeatTimeout → watchdogTick st now = st) := by
  refine ⟨rfl, fun h => ?_, fun h => ?_⟩
  · simp [watchdogTick, ConnState.disconnect, h]
  · simp [watchdogTick, Nat.not_lt.mpr h]

/-- C8 witness: the watchdog evaluated 26 s (timeout exceeded) and 10 s
(within the window) after the last heartbeat. -/
theorem watchdog_tick_spec_witness :
    ((watchdogTick (connNew true 0) (26 * nsPerSecond)).stats.missed =
        (connNew true 0).stats.missed + 1 ∧
      (watchdogTick (connNew true 0) (26 * nsPerSecond)).connected = false ∧
      (watchdogTick (connNew true 0) (26 * nsPerSecond)).transportClosed = true) ∧
    watchdogTick (connNew true 0) (10 * nsPerSecond) = connNew true 0 :=
  ⟨(watchdog_tick_spec true 0 (connNew true 0) (26 * nsPerSecond)).2.1 (by decide),
    (watchdog_tick_spec true 0 (connNew true 0) (10 * nsPerSecond)).2.2 (by decide)⟩

/-- C9: for every protocol message struct and every field assignment, any
`Message` that `Marshal` returns satisfies `Length = len(Payload)` (the
`Option.all` is vacuous exactly when `lenUint32` would panic and no message
is returned). -/
theorem marshal_length_invariant :
    (∀ c : CloseConnection, (c.marshal.all fun m => m.length == m.payload.length) = true) ∧
    (∀ h : Heartbeat, (h.marshal.all fun m => m.length == m.payload.length) = true) ∧
    (∀ e : ErrorMessage, (e.marshal.all fun m => m.length == m.payload.length) = true) ∧
    (∀ b : BeginConnection, (b.marshal.all fun m => m.length == m.payload.length) = true) ∧
    (∀ e : EndConnection, (e.marshal.all fun m => m.length == m.payload.length) = true) ∧
    (∀ c : ConnectionReady, (c.marshal.all fun m => m.length == m.payload.length) = true) ∧
    (∀ c : ConnectionRegister, (c.marshal.all fun m => m.length == m.payload.length) = true) ∧
    (∀ c : ConnectionRegisterResp,
      (c.marshal.all fun m => m.length == m.payload.length) = true) := by
  refine ⟨fun c => mkMessage_length_all _ _, fun h => mkMessage_length_all _ _,
    fun e => mkMessage_length_all _ _, fun b => ?_, fun e => ?_, fun c => ?_,
    fun c => mkMessage_length_all _ _, fun c => ?_⟩
  · rcases hl : lenUint32 b.subdomain with _ | n <;>
      simp [BeginConnection.marshal, hl, mkMessage_length_all]
  · rcases hl : lenUint32 e.subdomain with _ | n <;>
      simp [EndConnection.marshal, hl, mkMessage_length_all]
  · rcases hl : lenUint32 c.subdomain with _ | n <;>
      simp [ConnectionReady.marshal, hl, mkMessage_length_all]
  · rcases hl : lenUint32 c.message with _ | n <;>
      simp [ConnectionRegisterResp.marshal, hl, mkMessage_length_all]

/-- C10: once `Close()` has succeeded the underlying stream handle is nil,
so a subsequent Read or Write returns 0 bytes with the error "stream is
nil", CloseWrite returns nil, and a second Close returns nil leaving the
state unchanged (idempotent). -/
theorem closed_stream_operations_safe (t t' : StreamClient)
    (h : t.close = (none, t')) :
    t'.read = (0, some (gostr "stream is nil")) ∧
    t'.write = (0, some (gostr "stream is nil")) ∧
    t'.closeWrite = none ∧
    t'.close = (none, t') := by
  have hs : t'.stream = none := by
    rcases ht : t.stream with _ | q
    · simp only [StreamClient.close, ht, Prod.mk.injEq, true_and] at h
      rw [← h]
      exact ht
    · rcases hc : q.closeErr with _ | e
      · simp only [StreamClient.close, ht, hc, Prod.mk.injEq, true_and] at h
        rw [← h]
      · simp [StreamClient.close, ht, hc] at h
  refine ⟨?_, ?_, ?_, ?_⟩ <;>
    simp [StreamClient.read, StreamClient.write, StreamClient.closeWrite,
      StreamClient.close, hs]

/-- C10 witness: closing a healthy open stream and running every operation
on the closed state. -/
theorem closed_stream_operations_safe_witness :
    StreamClient.read ⟨gostr "s", none, false⟩ = (0, some (gostr "stream is nil")) ∧
    StreamClient.write ⟨gostr "s", none, false⟩ = (0, some (gostr "stream is nil")) ∧
    StreamClient.closeWrite ⟨gostr "s", none, false⟩ = none ∧
    StreamClient.close ⟨gostr "s", none, false⟩ = (none, ⟨gostr "s", none, false⟩) :=
  closed_stream_operations_safe
    ⟨gostr "s", some ⟨none, (3, none), (4, none), none, none⟩, true⟩
    ⟨gostr "s", none, false⟩ rfl

end Gunnel
